import Mathlib

/-!
Shallow embedding of `lanelet2_core/src/BasicRegulatoryElements.cpp`.

Geometry primitives (linestrings, polygons) and lanelets are identified by
natural-number identities; their mutable attribute state lives in an explicit
heap (`PrimHeap`), and lanelet liveness (for weak references) is an explicit
set of live identities. Stateful C++ code becomes explicit state passing;
throwing constructors become `Except String`; the out-of-contract
front-of-empty dereference in `cancelType` becomes `Option`.
-/

namespace Lanelet2

/-- Semantic roles of the role-keyed parameter store
(`RoleName` / `RoleNameString` in the source). -/
inductive RoleName
  | Refers
  | RefLine
  | RightOfWay
  | Yield
  | Cancels
  | CancelLine
deriving DecidableEq, Repr

/-- String-keyed attribute map (`AttributeMap`): association list with
first-match lookup and replace-in-place insertion, mirroring `std::map`
lookup/assign observationally. -/
abbrev AttributeMap := List (String × String)

/-- Attribute lookup (first match). -/
def attrGet : AttributeMap → String → Option String
  | [], _ => none
  | (k, w) :: rest, key => if k = key then some w else attrGet rest key

/-- Attribute assignment, `attributes[key] = v`: replaces the value of an
existing key in place, appends a fresh key. -/
def attrSet : AttributeMap → String → String → AttributeMap
  | [], key, v => [(key, v)]
  | (k, w) :: rest, key, v =>
    if k = key then (k, v) :: rest else (k, w) :: attrSet rest key v

/-- The tagged union stored in a role's sequence (`RuleParameter`): a
linestring, a polygon, or a weak lanelet reference; each carries the identity
of the referenced object. (Points and areas are not exercised by the four
concrete types.) -/
inductive RuleParameter
  | lineString (id : Nat)
  | polygon (id : Nat)
  | weakLanelet (id : Nat)
deriving DecidableEq, Repr

/-- The role-keyed parameter store (`RuleParameterMap`). -/
abbrev RuleParameterMap := List (RoleName × List RuleParameter)

/-- Source entity `map.find(role)`: first matching key, `none` when the key is absent. -/
def rpmFind : RuleParameterMap → RoleName → Option (List RuleParameter)
  | [], _ => none
  | (k, v) :: rest, r => if k = r then some v else rpmFind rest r

/-- The sequence stored under a role, an absent key read as the empty
sequence. -/
def paramsAt (m : RuleParameterMap) (r : RoleName) : List RuleParameter :=
  (rpmFind m r).getD []

/-- Source entity `map[role] = v`: replaces the sequence of an existing key in place,
appends a fresh key. -/
def rpmSet : RuleParameterMap → RoleName → List RuleParameter → RuleParameterMap
  | [], r, v => [(r, v)]
  | (k, w) :: rest, r, v =>
    if k = r then (k, v) :: rest else (k, w) :: rpmSet rest r v

/-- Source entity `map.insert({role, v})`: no effect when the key is already present. -/
def rpmInsert (m : RuleParameterMap) (r : RoleName) (v : List RuleParameter) :
    RuleParameterMap :=
  match rpmFind m r with
  | some _ => m
  | none => m ++ [(r, v)]

/-- Source entity `map[role].emplace_back(p)`: creates the key with an empty sequence when
absent, then appends. -/
def rpmAppend (m : RuleParameterMap) (r : RoleName) (p : RuleParameter) :
    RuleParameterMap :=
  rpmSet m r (paramsAt m r ++ [p])

/-- The shared regulatory element record (`RegulatoryElementData`):
identifier, attribute map, parameter store. -/
structure RegulatoryElementData where
  id : Nat
  attributes : AttributeMap
  parameters : RuleParameterMap
deriving DecidableEq, Repr

/-- Heap of geometry-primitive attribute state: identity to attribute map.
Models the shared mutable data of `LineString3d` / `Polygon3d` objects. -/
abbrev PrimHeap := List (Nat × AttributeMap)

/-- Attributes of the primitive with identity `i` (empty when unknown). -/
def heapAttrs : PrimHeap → Nat → AttributeMap
  | [], _ => []
  | (j, a) :: rest, i => if j = i then a else heapAttrs rest i

/-- Source entity `prim.setAttribute(key, v)` on the primitive with identity `i`. -/
def heapSetAttr : PrimHeap → Nat → String → String → PrimHeap
  | [], i, key, v => [(i, [(key, v)])]
  | (j, a) :: rest, i, key, v =>
    if j = i then (j, attrSet a key v) :: rest
    else (j, a) :: heapSetAttr rest i key v

/-- Source entity `LineStringOrPolygon3d`: the two geometry alternatives allowed as a
traffic light or traffic sign. -/
inductive LineStringOrPolygon3d
  | ls (id : Nat)
  | poly (id : Nat)
deriving DecidableEq, Repr

/-- Identity of the underlying primitive. -/
def LineStringOrPolygon3d.idOf : LineStringOrPolygon3d → Nat
  | .ls i => i
  | .poly i => i

/-- Source entity `asRuleParameter`: inject the geometry alternative into the variant. -/
def LineStringOrPolygon3d.asRuleParameter :
    LineStringOrPolygon3d → RuleParameter
  | .ls i => .lineString i
  | .poly i => .polygon i

/-- Source entity `std::operator==` on weak lanelet references (source lines 10-12): both
operands must be non-expired and lock to the same data. `live` is the set of
live lanelet identities. -/
def wlaneletEq (live : List Nat) (a b : Nat) : Bool :=
  decide (a ∈ live) && decide (b ∈ live) && a == b

/-- Equality of stored rule parameters, as used by `std::find` inside
`findAndErase`: same alternative and equal operands; linestrings and polygons
compare by shared-data identity, weak lanelets by the custom weak-reference
equality. -/
def paramEq (live : List Nat) : RuleParameter → RuleParameter → Bool
  | .lineString a, .lineString b => a == b
  | .polygon a, .polygon b => a == b
  | .weakLanelet a, .weakLanelet b => wlaneletEq live a b
  | _, _ => false

/-- Source entity `findAndErase` (source lines 17-24): erase the first element equal to
`p`, reporting whether one was found. -/
def findAndErase (live : List Nat) (p : RuleParameter) :
    List RuleParameter → Bool × List RuleParameter
  | [] => (false, [])
  | q :: rest =>
    if paramEq live q p then (true, rest)
    else
      let fe := findAndErase live p rest
      (fe.1, q :: fe.2)

/-- Source entity `tryGetFront` (source lines 27-32). -/
def tryGetFront : List α → Option α
  | [] => none
  | x :: _ => some x

/-- Source entity `getLsOrPoly` (source lines 44-62): the role's sequence projected to its
linestring and polygon entries, in order; an absent key reads as empty. -/
def getLsOrPoly (m : RuleParameterMap) (r : RoleName) :
    List LineStringOrPolygon3d :=
  (paramsAt m r).filterMap fun p =>
    match p with
    | .lineString i => some (.ls i)
    | .polygon i => some (.poly i)
    | .weakLanelet _ => none

/-- Modelled from the spec: the Typed View Base generic accessor
`parametersOfType` for linestrings (declared in `RegulatoryElement.h`, which
is not under src/) — scans the role's sequence and yields, in order, every
linestring entry. -/
def getParamsLineStrings (m : RuleParameterMap) (r : RoleName) : List Nat :=
  (paramsAt m r).filterMap fun p =>
    match p with
    | .lineString i => some i
    | _ => none

/-- Modelled from the spec: the generic accessor for weak lanelet references
— yields the stored weak references as-is, without resolution. -/
def getParamsWeakLanelets (m : RuleParameterMap) (r : RoleName) : List Nat :=
  (paramsAt m r).filterMap fun p =>
    match p with
    | .weakLanelet i => some i
    | _ => none

/-- Modelled from the spec: the generic accessor for strong lanelets — weak
references are resolved to strong on read, an expired entry is silently
skipped (spec 4.2). -/
def getParamsLanelets (live : List Nat) (m : RuleParameterMap) (r : RoleName) :
    List Nat :=
  (paramsAt m r).filterMap fun p =>
    match p with
    | .weakLanelet i => if i ∈ live then some i else none
    | _ => none

/-- Attribute value sentinels (`AttributeValueString`). -/
def regulatoryElementValue : String := "regulatory_element"

/-- Registry tag of TrafficLight. -/
def trafficLightValue : String := "traffic_light"

/-- Registry tag of TrafficSign, also the sentinel written onto sign
geometries. -/
def trafficSignValue : String := "traffic_sign"

/-- Registry tag of SpeedLimit. -/
def speedLimitValue : String := "speed_limit"

/-- Registry tag of RightOfWay. -/
def rightOfWayValue : String := "right_of_way"

/-- Attribute key of the Type attribute. -/
def typeKey : String := "type"

/-- Attribute key of the Subtype attribute. -/
def subtypeKey : String := "subtype"

/-- Source entity `TrafficSignsWithType`: a group of sign geometries together with the type
string to stamp onto them. -/
structure TrafficSignsWithType where
  trafficSigns : List LineStringOrPolygon3d
  type : String
deriving DecidableEq, Repr

/-- The per-sign body of `updateTrafficSigns`: force the sign's Type
attribute to the traffic-sign sentinel and its Subtype attribute to the
group's type string. -/
def applySignUpdate (t : String) (h : PrimHeap) (s : LineStringOrPolygon3d) :
    PrimHeap :=
  heapSetAttr (heapSetAttr h s.idOf typeKey trafficSignValue) s.idOf subtypeKey t

/-- Source entity `updateTrafficSigns` (source lines 69-76): when the group's type string
is non-empty, stamp every sign geometry of the group. -/
def updateTrafficSigns (h : PrimHeap) (g : TrafficSignsWithType) : PrimHeap :=
  if g.type = "" then h else g.trafficSigns.foldl (applySignUpdate g.type) h

/-- Source entity `constructTrafficLightData` (source lines 78-89). -/
def constructTrafficLightData (id : Nat) (attributes : AttributeMap)
    (trafficLights : List Nat) (stopLine : Option Nat) :
    RegulatoryElementData :=
  let rpm : RuleParameterMap :=
    [(RoleName.Refers, trafficLights.map RuleParameter.lineString)]
  let rpm :=
    match stopLine with
    | some sl => rpmInsert rpm RoleName.RefLine [RuleParameter.lineString sl]
    | none => rpm
  let a := attrSet (attrSet attributes typeKey regulatoryElementValue)
    subtypeKey trafficLightValue
  ⟨id, a, rpm⟩

/-- Source entity `constructTrafficSignData` (source lines 90-104): stamps both sign
groups (a side effect on the heap), then builds the record. -/
def constructTrafficSignData (h : PrimHeap) (id : Nat)
    (attributes : AttributeMap) (ts cts : TrafficSignsWithType)
    (refLines cancelLines : List Nat) : PrimHeap × RegulatoryElementData :=
  let h1 := updateTrafficSigns h ts
  let h2 := updateTrafficSigns h1 cts
  let rpm : RuleParameterMap :=
    [(RoleName.Refers, ts.trafficSigns.map (·.asRuleParameter)),
     (RoleName.Cancels, cts.trafficSigns.map (·.asRuleParameter)),
     (RoleName.RefLine, refLines.map RuleParameter.lineString),
     (RoleName.CancelLine, cancelLines.map RuleParameter.lineString)]
  let a := attrSet (attrSet attributes typeKey regulatoryElementValue)
    subtypeKey trafficSignValue
  (h2, ⟨id, a, rpm⟩)

/-- Source entity `constructSpeedLimitData` (source lines 105-112): delegate to the
traffic-sign construction, then overwrite the Subtype attribute. -/
def constructSpeedLimitData (h : PrimHeap) (id : Nat)
    (attributes : AttributeMap) (ts cts : TrafficSignsWithType)
    (refLines cancelLines : List Nat) : PrimHeap × RegulatoryElementData :=
  let hd := constructTrafficSignData h id attributes ts cts refLines cancelLines
  (hd.1, { hd.2 with
    attributes := attrSet hd.2.attributes subtypeKey speedLimitValue })

/-- Source entity `constructRightOfWayData` (source lines 113-124): lanelets are stored as
weak references; the optional stop line is assigned wholesale. -/
def constructRightOfWayData (id : Nat) (attributes : AttributeMap)
    (rightOfWay yield : List Nat) (stopLine : Option Nat) :
    RegulatoryElementData :=
  let rpm : RuleParameterMap :=
    [(RoleName.RightOfWay, rightOfWay.map RuleParameter.weakLanelet),
     (RoleName.Yield, yield.map RuleParameter.weakLanelet)]
  let a := attrSet (attrSet attributes typeKey regulatoryElementValue)
    subtypeKey rightOfWayValue
  let rpm :=
    match stopLine with
    | some sl => rpmSet rpm RoleName.RefLine [RuleParameter.lineString sl]
    | none => rpm
  ⟨id, a, rpm⟩

/-- Whether an `Except` result is the failure (thrown) outcome. -/
def failed : Except String α → Bool
  | .error _ => true
  | .ok _ => false

/-- Decidable equality of failure-or-value results. -/
instance instDecEqExcept {ε α : Type} [DecidableEq ε] [DecidableEq α] :
    DecidableEq (Except ε α) := fun x y =>
  match x, y with
  | .ok a, .ok b =>
    if h : a = b then .isTrue (by rw [h])
    else .isFalse (fun hc => h (Except.ok.inj hc))
  | .error e, .error f =>
    if h : e = f then .isTrue (by rw [h])
    else .isFalse (fun hc => h (Except.error.inj hc))
  | .ok _, .error _ => .isFalse (fun hc => Except.noConfusion hc)
  | .error _, .ok _ => .isFalse (fun hc => Except.noConfusion hc)

/-- Source entity `TrafficLight::TrafficLight(const RegulatoryElementDataPtr&)` (source
lines 136-143): validation of a raw record; note both checks count only the
linestring entries of the role. On success the view wraps the record
unchanged. -/
def trafficLightChecked (d : RegulatoryElementData) :
    Except String RegulatoryElementData :=
  if getParamsLineStrings d.parameters RoleName.Refers = [] then
    .error "No traffic light defined!"
  else if 1 < (getParamsLineStrings d.parameters RoleName.RefLine).length then
    .error "There not exist more than one stop line!"
  else .ok d

/-- Source entity `TrafficLight::TrafficLight(Id, ...)` (source lines 145-147). -/
def trafficLightDirect (id : Nat) (attributes : AttributeMap)
    (trafficLights : List Nat) (stopLine : Option Nat) :
    Except String RegulatoryElementData :=
  trafficLightChecked
    (constructTrafficLightData id attributes trafficLights stopLine)

/-- Source entity `TrafficLight::stopLine` (source lines 149-153). -/
def TrafficLight.stopLine (d : RegulatoryElementData) : Option Nat :=
  tryGetFront (getParamsLineStrings d.parameters RoleName.RefLine)

/-- Source entity `TrafficLight::trafficLights` (source lines 155-159). -/
def TrafficLight.trafficLights (d : RegulatoryElementData) :
    List LineStringOrPolygon3d :=
  getLsOrPoly d.parameters RoleName.Refers

/-- Append a parameter to a role's sequence of a record (the shared body of
every `addX` mutator). -/
def addToRole (d : RegulatoryElementData) (r : RoleName) (p : RuleParameter) :
    RegulatoryElementData :=
  { d with parameters := rpmAppend d.parameters r p }

/-- The shared body of every `removeX` mutator:
`findAndErase(p, parameters().find(role)->second)`. The source dereferences
the `find` result without an absence check; a record whose role key is absent
makes the operation undefined, rendered here as `none`. -/
def removeFromRole (live : List Nat) (d : RegulatoryElementData)
    (r : RoleName) (p : RuleParameter) :
    Option (Bool × RegulatoryElementData) :=
  match rpmFind d.parameters r with
  | none => none
  | some seq =>
    let fe := findAndErase live p seq
    some (fe.1, { d with parameters := rpmSet d.parameters r fe.2 })

/-- Source entity `TrafficLight::addTrafficLight` (source lines 161-163). -/
def TrafficLight.addTrafficLight (d : RegulatoryElementData)
    (p : LineStringOrPolygon3d) : RegulatoryElementData :=
  addToRole d RoleName.Refers p.asRuleParameter

/-- Source entity `TrafficLight::removeTrafficLight` (source lines 165-167). -/
def TrafficLight.removeTrafficLight (live : List Nat)
    (d : RegulatoryElementData) (p : LineStringOrPolygon3d) :
    Option (Bool × RegulatoryElementData) :=
  removeFromRole live d RoleName.Refers p.asRuleParameter

/-- Source entity `RightOfWay::RightOfWay(const RegulatoryElementDataPtr&)` (source lines
173-180): both checks look at the stored weak references, without
resolution. -/
def rightOfWayChecked (d : RegulatoryElementData) :
    Except String RegulatoryElementData :=
  if getParamsWeakLanelets d.parameters RoleName.RightOfWay = [] then
    .error "A maneuver must refer to at least one lanelet that has right of way!"
  else if getParamsWeakLanelets d.parameters RoleName.Yield = [] then
    .error "A maneuver must refer to at least one lanelet that has to yield!"
  else .ok d

/-- Source entity `RightOfWay::RightOfWay(Id, ...)` (source lines 182-184). -/
def rightOfWayDirect (id : Nat) (attributes : AttributeMap)
    (rightOfWay yield : List Nat) (stopLine : Option Nat) :
    Except String RegulatoryElementData :=
  rightOfWayChecked
    (constructRightOfWayData id attributes rightOfWay yield stopLine)

/-- Maneuver classification result (`ManeuverType`). -/
inductive ManeuverType
  | RightOfWay
  | Yield
  | Unknown
deriving DecidableEq, Repr

/-- Source entity `RightOfWay::rightOfWayLanelets` (source lines 196-198): stored weak
references resolved to strong lanelets, expired entries skipped. -/
def RightOfWay.rightOfWayLanelets (live : List Nat)
    (d : RegulatoryElementData) : List Nat :=
  getParamsLanelets live d.parameters RoleName.RightOfWay

/-- Source entity `RightOfWay::yieldLanelets` (source lines 200-202). -/
def RightOfWay.yieldLanelets (live : List Nat) (d : RegulatoryElementData) :
    List Nat :=
  getParamsLanelets live d.parameters RoleName.Yield

/-- Source entity `RightOfWay::getManeuver` (source lines 186-194): membership in the
resolved right-of-way lanelets, then in the resolved yield lanelets. -/
def RightOfWay.getManeuver (live : List Nat) (d : RegulatoryElementData)
    (x : Nat) : ManeuverType :=
  if x ∈ RightOfWay.rightOfWayLanelets live d then ManeuverType.RightOfWay
  else if x ∈ RightOfWay.yieldLanelets live d then ManeuverType.Yield
  else ManeuverType.Unknown

/-- Source entity `RightOfWay::addRightOfWayLanelet` (source lines 222-224). -/
def RightOfWay.addRightOfWayLanelet (d : RegulatoryElementData) (x : Nat) :
    RegulatoryElementData :=
  addToRole d RoleName.RightOfWay (RuleParameter.weakLanelet x)

/-- Source entity `RightOfWay::addYieldLanelet` (source line 226). -/
def RightOfWay.addYieldLanelet (d : RegulatoryElementData) (x : Nat) :
    RegulatoryElementData :=
  addToRole d RoleName.Yield (RuleParameter.weakLanelet x)

/-- Source entity `RightOfWay::removeRightOfWayLanelet` (source lines 228-230). -/
def RightOfWay.removeRightOfWayLanelet (live : List Nat)
    (d : RegulatoryElementData) (x : Nat) :
    Option (Bool × RegulatoryElementData) :=
  removeFromRole live d RoleName.RightOfWay (RuleParameter.weakLanelet x)

/-- Source entity `RightOfWay::removeYieldLanelet` (source lines 232-234). -/
def RightOfWay.removeYieldLanelet (live : List Nat)
    (d : RegulatoryElementData) (x : Nat) :
    Option (Bool × RegulatoryElementData) :=
  removeFromRole live d RoleName.Yield (RuleParameter.weakLanelet x)

/-- Attributes of a sign geometry read through the heap. -/
def signAttr (h : PrimHeap) (s : LineStringOrPolygon3d) (key : String) :
    Option String :=
  attrGet (heapAttrs h s.idOf) key

/-- Source entity `TrafficSign::trafficSigns` (source lines 248-252). -/
def trafficSigns (d : RegulatoryElementData) : List LineStringOrPolygon3d :=
  getLsOrPoly d.parameters RoleName.Refers

/-- Source entity `TrafficSign::cancellingTrafficSigns` (source lines 308-312). -/
def cancellingTrafficSigns (d : RegulatoryElementData) :
    List LineStringOrPolygon3d :=
  getLsOrPoly d.parameters RoleName.Cancels

/-- The shared tail of `type()` and `cancelType()`: the Subtype attribute
value of a sign, or the invalid-input failure with the given message when the
sign lacks the attribute. -/
def firstSignSubtype (h : PrimHeap) (s : LineStringOrPolygon3d)
    (noSubtypeMsg : String) : Except String String :=
  match signAttr h s subtypeKey with
  | some v => .ok v
  | none => .error noSubtypeMsg

/-- Source entity `TrafficSign::type` (source lines 254-264): guarded against an empty
sign sequence. -/
def TrafficSign.type (h : PrimHeap) (d : RegulatoryElementData) :
    Except String String :=
  match trafficSigns d with
  | [] => .error "Regulatory element can not determine the type of the traffic sign!"
  | s :: _ =>
    firstSignSubtype h s
      "Regulatory element has a traffic sign without subtype attribute!"

/-- Source entity `TrafficSign::cancelType` (source lines 314-321): reads
`signs.front()` without an emptiness guard — the front of an empty sequence
is undefined behavior, rendered here as `none`. -/
def TrafficSign.cancelType (h : PrimHeap) (d : RegulatoryElementData) :
    Option (Except String String) :=
  match cancellingTrafficSigns d with
  | [] => none
  | s :: _ =>
    some (firstSignSubtype h s
      "Regulatory element has a cancelling traffic sign without subtype attribute!")

/-- Source entity `TrafficSign::TrafficSign(const RegulatoryElementDataPtr&)` (source
lines 238-240): validation runs `type()` and propagates its failure. -/
def trafficSignChecked (h : PrimHeap) (d : RegulatoryElementData) :
    Except String RegulatoryElementData :=
  match TrafficSign.type h d with
  | .ok _ => .ok d
  | .error e => .error e

/-- Source entity `TrafficSign::TrafficSign(Id, ...)` (source lines 242-246). -/
def trafficSignDirect (h : PrimHeap) (id : Nat) (attributes : AttributeMap)
    (ts cts : TrafficSignsWithType) (refLines cancelLines : List Nat) :
    PrimHeap × Except String RegulatoryElementData :=
  let hd := constructTrafficSignData h id attributes ts cts refLines cancelLines
  (hd.1, trafficSignChecked hd.1 hd.2)

/-- Source entity `SpeedLimit::SpeedLimit(Id, ...)` (source lines 292-296): delegates to
the TrafficSign validation over the speed-limit record. -/
def speedLimitDirect (h : PrimHeap) (id : Nat) (attributes : AttributeMap)
    (ts cts : TrafficSignsWithType) (refLines cancelLines : List Nat) :
    PrimHeap × Except String RegulatoryElementData :=
  let hd := constructSpeedLimitData h id attributes ts cts refLines cancelLines
  (hd.1, trafficSignChecked hd.1 hd.2)

/-- Source entity `TrafficSign::addTrafficSign` (source lines 270-272). -/
def TrafficSign.addTrafficSign (d : RegulatoryElementData)
    (s : LineStringOrPolygon3d) : RegulatoryElementData :=
  addToRole d RoleName.Refers s.asRuleParameter

/-- Source entity `TrafficSign::removeTrafficSign` (source lines 274-276). -/
def TrafficSign.removeTrafficSign (live : List Nat)
    (d : RegulatoryElementData) (s : LineStringOrPolygon3d) :
    Option (Bool × RegulatoryElementData) :=
  removeFromRole live d RoleName.Refers s.asRuleParameter

/-- Source entity `TrafficSign::addRefLine` (source line 278). -/
def TrafficSign.addRefLine (d : RegulatoryElementData) (l : Nat) :
    RegulatoryElementData :=
  addToRole d RoleName.RefLine (RuleParameter.lineString l)

/-- Source entity `TrafficSign::removeRefLine` (source lines 280-282). -/
def TrafficSign.removeRefLine (live : List Nat) (d : RegulatoryElementData)
    (l : Nat) : Option (Bool × RegulatoryElementData) :=
  removeFromRole live d RoleName.RefLine (RuleParameter.lineString l)

/-- Source entity `TrafficSign::addCancellingRefLine` (source lines 284-286). -/
def TrafficSign.addCancellingRefLine (d : RegulatoryElementData) (l : Nat) :
    RegulatoryElementData :=
  addToRole d RoleName.CancelLine (RuleParameter.lineString l)

/-- Source entity `TrafficSign::removeCancellingRefLine` (source lines 288-290). -/
def TrafficSign.removeCancellingRefLine (live : List Nat)
    (d : RegulatoryElementData) (l : Nat) :
    Option (Bool × RegulatoryElementData) :=
  removeFromRole live d RoleName.CancelLine (RuleParameter.lineString l)

/-- Source entity `TrafficSign::addCancellingTrafficSign` (source lines 300-302). -/
def TrafficSign.addCancellingTrafficSign (d : RegulatoryElementData)
    (s : LineStringOrPolygon3d) : RegulatoryElementData :=
  addToRole d RoleName.Cancels s.asRuleParameter

/-- Source entity `TrafficSign::removeCancellingTrafficSign` (source lines 304-306). -/
def TrafficSign.removeCancellingTrafficSign (live : List Nat)
    (d : RegulatoryElementData) (s : LineStringOrPolygon3d) :
    Option (Bool × RegulatoryElementData) :=
  removeFromRole live d RoleName.Cancels s.asRuleParameter

/-- Modelled from the spec: the Type Registry (spec 4.4 —
`RegisterRegulatoryElement` and the factory table are declared in headers not
under src/). Generic reconstruction reads the raw record's Subtype attribute
and dispatches to the factory the matching concrete type registered; each
factory runs the same validation as the type's data constructor over the raw
record itself, so a successful reconstruction wraps that very record. An
unknown tag is a reportable error. -/
def registryBuild (h : PrimHeap) (d : RegulatoryElementData) :
    Except String RegulatoryElementData :=
  match attrGet d.attributes subtypeKey with
  | some tag =>
    if tag = trafficLightValue then trafficLightChecked d
    else if tag = rightOfWayValue then rightOfWayChecked d
    else if tag = trafficSignValue then trafficSignChecked h d
    else if tag = speedLimitValue then trafficSignChecked h d
    else .error "Unregistered regulatory element type!"
  | none => .error "Unregistered regulatory element type!"

/-- Value projection of an `Except` result, forgetting the failure message. -/
def exceptValue : Except String α → Option α
  | .ok a => some a
  | .error _ => none

/-- The record an add-then-remove round trip produces: the role's sequence
written back to its pre-add value. -/
def afterRoundtrip (d : RegulatoryElementData) (r : RoleName)
    (p : RuleParameter) : RegulatoryElementData :=
  { d with parameters :=
      rpmSet (rpmAppend d.parameters r p) r (paramsAt d.parameters r) }

/-- The record with its Refers role overwritten by its Cancels sequence, used
to compare `cancelType` with `type` run over the Cancels role. -/
def withRefersFromCancels (d : RegulatoryElementData) : RegulatoryElementData :=
  { d with parameters := rpmSet d.parameters RoleName.Refers (paramsAt d.parameters RoleName.Cancels) }

/-- Example heap: linestring 7 carries a Subtype attribute "stop". -/
def heapWithStopSign : PrimHeap := [(7, [("subtype", "stop")])]

/-- Example record: a valid traffic sign record whose parameter map holds
only the Refers key (no RefLine, Cancels or CancelLine key). -/
def signOnlyRecord : RegulatoryElementData :=
  ⟨5, [], [(RoleName.Refers, [RuleParameter.lineString 7])]⟩

/-- Example record: a traffic sign record with one cancelling sign. -/
def signWithCancelRecord : RegulatoryElementData :=
  ⟨6, [], [(RoleName.Refers, [RuleParameter.lineString 7]),
           (RoleName.Cancels, [RuleParameter.lineString 7])]⟩

/-- Example record: a right-of-way record granting right of way to lanelets
1 and 2, with lanelets 2 and 4 yielding. -/
def rowRecord : RegulatoryElementData :=
  ⟨8, [], [(RoleName.RightOfWay,
              [RuleParameter.weakLanelet 1, RuleParameter.weakLanelet 2]),
           (RoleName.Yield,
              [RuleParameter.weakLanelet 2, RuleParameter.weakLanelet 4])]⟩

/-- Example record: a right-of-way record whose only stored lanelet
reference, lanelet 1, can be taken as expired. -/
def rowStaleRecord : RegulatoryElementData :=
  ⟨9, [], [(RoleName.RightOfWay, [RuleParameter.weakLanelet 1]),
           (RoleName.Yield, [RuleParameter.weakLanelet 1])]⟩

/-- Example record: a traffic light record with a single referenced
linestring. -/
def tlSingleRecord : RegulatoryElementData :=
  ⟨10, [], [(RoleName.Refers, [RuleParameter.lineString 2])]⟩

/-- Example heap with two attribute-less sign geometries. -/
def twoSignHeap : PrimHeap := [(1, []), (2, [])]

theorem attrGet_set_self (a : AttributeMap) (k v : String) :
    attrGet (attrSet a k v) k = some v := by
  induction a with
  | nil => simp [attrSet, attrGet]
  | cons hd tl ih =>
    obtain ⟨k1, v1⟩ := hd
    by_cases hk : k1 = k
    · simp [attrSet, attrGet, hk]
    · simp [attrSet, attrGet, hk, ih]

theorem attrGet_set_ne (a : AttributeMap) (k2 k v : String) (hne : k2 ≠ k) :
    attrGet (attrSet a k2 v) k = attrGet a k := by
  induction a with
  | nil => simp [attrSet, attrGet, hne]
  | cons hd tl ih =>
    obtain ⟨k1, v1⟩ := hd
    by_cases hk : k1 = k2
    · subst hk
      simp [attrSet, attrGet, hne]
    · simp [attrSet, attrGet, hk, ih]

theorem rpmFind_set_self (m : RuleParameterMap) (r : RoleName)
    (v : List RuleParameter) : rpmFind (rpmSet m r v) r = some v := by
  induction m with
  | nil => simp [rpmSet, rpmFind]
  | cons hd tl ih =>
    obtain ⟨k1, v1⟩ := hd
    by_cases hk : k1 = r
    · simp [rpmSet, rpmFind, hk]
    · simp [rpmSet, rpmFind, hk, ih]

theorem rpmFind_set_ne (m : RuleParameterMap) (r2 r : RoleName)
    (v : List RuleParameter) (hne : r2 ≠ r) :
    rpmFind (rpmSet m r2 v) r = rpmFind m r := by
  induction m with
  | nil => simp [rpmSet, rpmFind, hne]
  | cons hd tl ih =>
    obtain ⟨k1, v1⟩ := hd
    by_cases hk : k1 = r2
    · subst hk
      simp [rpmSet, rpmFind, hne]
    · simp [rpmSet, rpmFind, hk, ih]

theorem rpmSet_self (m : RuleParameterMap) (r : RoleName)
    (v : List RuleParameter) (hf : rpmFind m r = some v) :
    rpmSet m r v = m := by
  induction m with
  | nil => simp [rpmFind] at hf
  | cons hd tl ih =>
    obtain ⟨k1, v1⟩ := hd
    by_cases hk : k1 = r
    · simp [rpmFind, hk] at hf
      simp [rpmSet, hk, hf]
    · simp [rpmFind, hk] at hf
      simp [rpmSet, hk, ih hf]

theorem paramsAt_set_self (m : RuleParameterMap) (r : RoleName)
    (v : List RuleParameter) : paramsAt (rpmSet m r v) r = v := by
  simp [paramsAt, rpmFind_set_self]

theorem paramsAt_set_ne (m : RuleParameterMap) (r2 r : RoleName)
    (v : List RuleParameter) (hne : r2 ≠ r) :
    paramsAt (rpmSet m r2 v) r = paramsAt m r := by
  simp [paramsAt, rpmFind_set_ne m r2 r v hne]

theorem heapAttrs_set_self (h : PrimHeap) (i : Nat) (k v : String) :
    heapAttrs (heapSetAttr h i k v) i = attrSet (heapAttrs h i) k v := by
  induction h with
  | nil => simp [heapSetAttr, heapAttrs, attrSet]
  | cons hd tl ih =>
    obtain ⟨j, a⟩ := hd
    by_cases hj : j = i
    · simp [heapSetAttr, heapAttrs, hj]
    · simp [heapSetAttr, heapAttrs, hj, ih]

theorem heapAttrs_set_ne (h : PrimHeap) (i j : Nat) (k v : String)
    (hne : j ≠ i) : heapAttrs (heapSetAttr h i k v) j = heapAttrs h j := by
  induction h with
  | nil => simp [heapSetAttr, heapAttrs, Ne.symm hne]
  | cons hd tl ih =>
    obtain ⟨j1, a⟩ := hd
    by_cases hj : j1 = i
    · subst hj
      simp [heapSetAttr, heapAttrs, Ne.symm hne]
    · simp [heapSetAttr, heapAttrs, hj, ih]

theorem findAndErase_not_found (live : List Nat) (p : RuleParameter)
    (seq : List RuleParameter)
    (hno : ∀ q ∈ seq, paramEq live q p = false) :
    findAndErase live p seq = (false, seq) := by
  induction seq with
  | nil => simp [findAndErase]
  | cons q rest ih =>
    have hq := hno q (List.mem_cons_self q rest)
    have hrest : ∀ x ∈ rest, paramEq live x p = false := fun x hx =>
      hno x (List.mem_cons_of_mem q hx)
    simp [findAndErase, hq, ih hrest]

theorem findAndErase_append (live : List Nat) (p : RuleParameter)
    (old : List RuleParameter) (hself : paramEq live p p = true)
    (hno : ∀ q ∈ old, paramEq live q p = false) :
    findAndErase live p (old ++ [p]) = (true, old) := by
  induction old with
  | nil => simp [findAndErase, hself]
  | cons q rest ih =>
    have hq := hno q (List.mem_cons_self q rest)
    have hrest : ∀ x ∈ rest, paramEq live x p = false := fun x hx =>
      hno x (List.mem_cons_of_mem q hx)
    simp [findAndErase, hq, ih hrest]

theorem rpmFind_append_left (m l : RuleParameterMap) (r : RoleName)
    (v : List RuleParameter) (hf : rpmFind m r = some v) :
    rpmFind (m ++ l) r = some v := by
  induction m with
  | nil => simp [rpmFind] at hf
  | cons hd tl ih =>
    obtain ⟨k1, v1⟩ := hd
    by_cases hk : k1 = r
    · simp [rpmFind, hk] at hf
      simp [rpmFind, hk, hf]
    · simp [rpmFind, hk] at hf ⊢
      exact ih hf

theorem signStamped_apply (t : String) (h : PrimHeap)
    (s : LineStringOrPolygon3d) :
    attrGet (heapAttrs (applySignUpdate t h s) s.idOf) typeKey
        = some trafficSignValue ∧
    attrGet (heapAttrs (applySignUpdate t h s) s.idOf) subtypeKey = some t := by
  unfold applySignUpdate
  rw [heapAttrs_set_self, heapAttrs_set_self]
  constructor
  · rw [attrGet_set_ne _ _ _ _ (by decide : subtypeKey ≠ typeKey)]
    exact attrGet_set_self _ _ _
  · exact attrGet_set_self _ _ _

theorem heapAttrs_apply_ne (t : String) (h : PrimHeap)
    (s : LineStringOrPolygon3d) (i : Nat) (hne : i ≠ s.idOf) :
    heapAttrs (applySignUpdate t h s) i = heapAttrs h i := by
  unfold applySignUpdate
  rw [heapAttrs_set_ne _ _ _ _ _ hne, heapAttrs_set_ne _ _ _ _ _ hne]

theorem signStamped_apply_pres (t : String) (h : PrimHeap)
    (s : LineStringOrPolygon3d) (i : Nat)
    (hp : attrGet (heapAttrs h i) typeKey = some trafficSignValue ∧
      attrGet (heapAttrs h i) subtypeKey = some t) :
    attrGet (heapAttrs (applySignUpdate t h s) i) typeKey
        = some trafficSignValue ∧
    attrGet (heapAttrs (applySignUpdate t h s) i) subtypeKey = some t := by
  by_cases hi : i = s.idOf
  · subst hi
    exact signStamped_apply t h s
  · rw [heapAttrs_apply_ne t h s i hi]
    exact hp

theorem signStamped_fold_pres (t : String)
    (signs : List LineStringOrPolygon3d) (h : PrimHeap) (i : Nat)
    (hp : attrGet (heapAttrs h i) typeKey = some trafficSignValue ∧
      attrGet (heapAttrs h i) subtypeKey = some t) :
    attrGet (heapAttrs (signs.foldl (applySignUpdate t) h) i) typeKey
        = some trafficSignValue ∧
    attrGet (heapAttrs (signs.foldl (applySignUpdate t) h) i) subtypeKey
        = some t := by
  induction signs generalizing h with
  | nil => exact hp
  | cons s rest ih =>
    exact ih (applySignUpdate t h s) (signStamped_apply_pres t h s i hp)

theorem signStamped_fold_mem (t : String)
    (signs : List LineStringOrPolygon3d) (h : PrimHeap)
    (s : LineStringOrPolygon3d) (hmem : s ∈ signs) :
    attrGet (heapAttrs (signs.foldl (applySignUpdate t) h) s.idOf) typeKey
        = some trafficSignValue ∧
    attrGet (heapAttrs (signs.foldl (applySignUpdate t) h) s.idOf) subtypeKey
        = some t := by
  induction signs generalizing h with
  | nil => cases hmem
  | cons a rest ih =>
    rcases List.mem_cons.mp hmem with hs | hs
    · subst hs
      exact signStamped_fold_pres t rest (applySignUpdate t h s) s.idOf
        (signStamped_apply t h s)
    · exact ih (applySignUpdate t h a) hs

theorem heapAttrs_fold_out (t : String)
    (signs : List LineStringOrPolygon3d) (h : PrimHeap) (i : Nat)
    (hout : ∀ s ∈ signs, i ≠ s.idOf) :
    heapAttrs (signs.foldl (applySignUpdate t) h) i = heapAttrs h i := by
  induction signs generalizing h with
  | nil => rfl
  | cons a rest ih =>
    have ha := hout a (List.mem_cons_self a rest)
    have hrest : ∀ s ∈ rest, i ≠ s.idOf := fun s hs =>
      hout s (List.mem_cons_of_mem a hs)
    calc heapAttrs (rest.foldl (applySignUpdate t) (applySignUpdate t h a)) i
        = heapAttrs (applySignUpdate t h a) i := ih _ hrest
      _ = heapAttrs h i := heapAttrs_apply_ne t h a i ha

theorem updateTrafficSigns_stamped (h : PrimHeap) (g : TrafficSignsWithType)
    (s : LineStringOrPolygon3d) (hmem : s ∈ g.trafficSigns)
    (ht : g.type ≠ "") :
    attrGet (heapAttrs (updateTrafficSigns h g) s.idOf) typeKey
        = some trafficSignValue ∧
    attrGet (heapAttrs (updateTrafficSigns h g) s.idOf) subtypeKey
        = some g.type := by
  unfold updateTrafficSigns
  rw [if_neg ht]
  exact signStamped_fold_mem g.type g.trafficSigns h s hmem

theorem updateTrafficSigns_out (h : PrimHeap) (g : TrafficSignsWithType)
    (i : Nat)
    (hout : g.type = "" ∨ i ∉ g.trafficSigns.map LineStringOrPolygon3d.idOf) :
    heapAttrs (updateTrafficSigns h g) i = heapAttrs h i := by
  unfold updateTrafficSigns
  rcases hout with ht | hi
  · rw [if_pos ht]
  · by_cases ht : g.type = ""
    · rw [if_pos ht]
    · rw [if_neg ht]
      refine heapAttrs_fold_out g.type g.trafficSigns h i ?_
      intro s hs he
      exact hi (List.mem_map.mpr ⟨s, hs, he.symm⟩)

theorem roundtrip_master (live : List Nat) (d : RegulatoryElementData)
    (r : RoleName) (p : RuleParameter) (hself : paramEq live p p = true)
    (hno : ∀ q ∈ paramsAt d.parameters r, paramEq live q p = false) :
    removeFromRole live (addToRole d r p) r p = some (true, afterRoundtrip d r p) ∧
    ∀ r2, paramsAt (afterRoundtrip d r p).parameters r2
        = paramsAt d.parameters r2 := by
  have hfe : findAndErase live p (paramsAt d.parameters r ++ [p])
      = (true, paramsAt d.parameters r) :=
    findAndErase_append live p (paramsAt d.parameters r) hself hno
  constructor
  · have hfind : rpmFind (addToRole d r p).parameters r
        = some (paramsAt d.parameters r ++ [p]) := by
      unfold addToRole rpmAppend
      exact rpmFind_set_self _ _ _
    unfold removeFromRole
    rw [hfind]
    simp only [hfe]
    rfl
  · intro r2
    unfold afterRoundtrip rpmAppend
    by_cases hr : r2 = r
    · subst hr
      simp [paramsAt_set_self]
    · simp [paramsAt_set_ne _ _ _ _ (fun hx => hr hx.symm)]

theorem paramEq_asRuleParameter_self (live : List Nat)
    (s : LineStringOrPolygon3d) :
    paramEq live s.asRuleParameter s.asRuleParameter = true := by
  cases s <;> simp [LineStringOrPolygon3d.asRuleParameter, paramEq]

theorem paramEq_weak_self (live : List Nat) (x : Nat) (hx : x ∈ live) :
    paramEq live (RuleParameter.weakLanelet x)
      (RuleParameter.weakLanelet x) = true := by
  simp [paramEq, wlaneletEq, hx]

theorem wlaneletEq_expired (live : List Nat) (a b : Nat)
    (hab : a ∉ live ∨ b ∉ live) : wlaneletEq live a b = false := by
  unfold wlaneletEq
  rcases hab with ha | hb
  · simp [ha]
  · simp [hb]

theorem constructTrafficLightData_subtype (id : Nat) (a : AttributeMap)
    (lights : List Nat) (sl : Option Nat) :
    attrGet (constructTrafficLightData id a lights sl).attributes subtypeKey
      = some trafficLightValue := by
  unfold constructTrafficLightData
  cases sl <;> exact attrGet_set_self _ _ _

theorem constructTrafficLightData_type (id : Nat) (a : AttributeMap)
    (lights : List Nat) (sl : Option Nat) :
    attrGet (constructTrafficLightData id a lights sl).attributes typeKey
      = some regulatoryElementValue := by
  unfold constructTrafficLightData
  cases sl <;>
    rw [show (⟨id, attrSet (attrSet a typeKey regulatoryElementValue) subtypeKey trafficLightValue, _⟩ : RegulatoryElementData).attributes = attrSet (attrSet a typeKey regulatoryElementValue) subtypeKey trafficLightValue from rfl,
      attrGet_set_ne _ _ _ _ (by decide : subtypeKey ≠ typeKey)] <;>
    exact attrGet_set_self _ _ _

theorem constructTrafficSignData_subtype (h : PrimHeap) (id : Nat)
    (a : AttributeMap) (ts cts : TrafficSignsWithType) (rl cl : List Nat) :
    attrGet (constructTrafficSignData h id a ts cts rl cl).2.attributes
      subtypeKey = some trafficSignValue :=
  attrGet_set_self _ _ _

theorem constructTrafficSignData_type (h : PrimHeap) (id : Nat)
    (a : AttributeMap) (ts cts : TrafficSignsWithType) (rl cl : List Nat) :
    attrGet (constructTrafficSignData h id a ts cts rl cl).2.attributes
      typeKey = some regulatoryElementValue := by
  unfold constructTrafficSignData
  rw [show (⟨id, attrSet (attrSet a typeKey regulatoryElementValue) subtypeKey trafficSignValue, _⟩ : RegulatoryElementData).attributes = attrSet (attrSet a typeKey regulatoryElementValue) subtypeKey trafficSignValue from rfl,
    attrGet_set_ne _ _ _ _ (by decide : subtypeKey ≠ typeKey)]
  exact attrGet_set_self _ _ _

theorem constructSpeedLimitData_subtype (h : PrimHeap) (id : Nat)
    (a : AttributeMap) (ts cts : TrafficSignsWithType) (rl cl : List Nat) :
    attrGet (constructSpeedLimitData h id a ts cts rl cl).2.attributes
      subtypeKey = some speedLimitValue :=
  attrGet_set_self _ _ _

theorem constructSpeedLimitData_type (h : PrimHeap) (id : Nat)
    (a : AttributeMap) (ts cts : TrafficSignsWithType) (rl cl : List Nat) :
    attrGet (constructSpeedLimitData h id a ts cts rl cl).2.attributes
      typeKey = some regulatoryElementValue := by
  have h1 : (constructSpeedLimitData h id a ts cts rl cl).2.attributes
      = attrSet (constructTrafficSignData h id a ts cts rl cl).2.attributes
          subtypeKey speedLimitValue := rfl
  rw [h1, attrGet_set_ne _ _ _ _ (by decide : subtypeKey ≠ typeKey)]
  exact constructTrafficSignData_type h id a ts cts rl cl

theorem constructRightOfWayData_subtype (id : Nat) (a : AttributeMap)
    (row yld : List Nat) (sl : Option Nat) :
    attrGet (constructRightOfWayData id a row yld sl).attributes subtypeKey
      = some rightOfWayValue := by
  unfold constructRightOfWayData
  cases sl <;> exact attrGet_set_self _ _ _

theorem constructRightOfWayData_type (id : Nat) (a : AttributeMap)
    (row yld : List Nat) (sl : Option Nat) :
    attrGet (constructRightOfWayData id a row yld sl).attributes typeKey
      = some regulatoryElementValue := by
  unfold constructRightOfWayData
  cases sl <;>
    rw [show (attrSet (attrSet a typeKey regulatoryElementValue) subtypeKey rightOfWayValue) = attrSet (attrSet a typeKey regulatoryElementValue) subtypeKey rightOfWayValue from rfl] <;>
    · rw [show (⟨id, attrSet (attrSet a typeKey regulatoryElementValue) subtypeKey rightOfWayValue, _⟩ : RegulatoryElementData).attributes = attrSet (attrSet a typeKey regulatoryElementValue) subtypeKey rightOfWayValue from rfl,
        attrGet_set_ne _ _ _ _ (by decide : subtypeKey ≠ typeKey)]
      exact attrGet_set_self _ _ _

theorem trafficSigns_withRefersFromCancels (d : RegulatoryElementData) :
    trafficSigns (withRefersFromCancels d) = cancellingTrafficSigns d := by
  unfold trafficSigns cancellingTrafficSigns withRefersFromCancels getLsOrPoly
  rw [show ({ d with parameters := rpmSet d.parameters RoleName.Refers (paramsAt d.parameters RoleName.Cancels) } : RegulatoryElementData).parameters = rpmSet d.parameters RoleName.Refers (paramsAt d.parameters RoleName.Cancels) from rfl,
    paramsAt_set_self]

/-- C2 counterexample: a record whose Refers role holds a single polygon has
a non-empty Refers sequence and fewer than two RefLine entries, yet
TrafficLight construction fails — the validation counts only linestring
entries of each role. -/
theorem trafficLight_construction_iff_cex :
    failed (trafficLightChecked
      ⟨1, [], [(RoleName.Refers, [RuleParameter.polygon 5])]⟩) = true ∧
    paramsAt [(RoleName.Refers, [RuleParameter.polygon 5])] RoleName.Refers ≠ [] ∧
    (paramsAt [(RoleName.Refers, [RuleParameter.polygon 5])] RoleName.RefLine).length < 2 := by
  decide

/-- C2 (amended): constructing a TrafficLight view from a record fails iff
the linestring projection of the Refers role is empty or the linestring
projection of the RefLine role has two or more entries; constructing a
TrafficLight with exactly one traffic-light linestring and no stop line
succeeds, after which stopLine() returns the empty optional. -/
theorem trafficLight_construction_iff :
    (∀ d, failed (trafficLightChecked d) = true ↔
      (getParamsLineStrings d.parameters RoleName.Refers = [] ∨
        1 < (getParamsLineStrings d.parameters RoleName.RefLine).length)) ∧
    (∀ id a l, trafficLightDirect id a [l] none
        = .ok (constructTrafficLightData id a [l] none) ∧
      TrafficLight.stopLine (constructTrafficLightData id a [l] none) = none) := by
  constructor
  · intro d
    unfold trafficLightChecked
    split_ifs with h1 h2
    · simp [failed, h1]
    · simp [failed, h1, h2]
    · simp [failed, h1, h2]
  · intro id a l
    constructor
    · show trafficLightChecked (constructTrafficLightData id a [l] none) = _
      simp [trafficLightChecked, constructTrafficLightData,
        getParamsLineStrings, paramsAt, rpmFind]
    · simp [TrafficLight.stopLine, tryGetFront, getParamsLineStrings,
        paramsAt, rpmFind, constructTrafficLightData]

/-- C4: getManeuver classifies by membership in the resolved right-of-way
lanelet sequence first, then the resolved yield sequence: RightOfWay when
the lanelet is in the right-of-way sequence (also when it is in both),
Yield when it is only in the yield sequence, Unknown when in neither. -/
theorem getManeuver_classification (live : List Nat)
    (d : RegulatoryElementData) (x : Nat) :
    (x ∈ RightOfWay.rightOfWayLanelets live d →
      RightOfWay.getManeuver live d x = ManeuverType.RightOfWay) ∧
    (x ∉ RightOfWay.rightOfWayLanelets live d →
      x ∈ RightOfWay.yieldLanelets live d →
      RightOfWay.getManeuver live d x = ManeuverType.Yield) ∧
    (x ∉ RightOfWay.rightOfWayLanelets live d →
      x ∉ RightOfWay.yieldLanelets live d →
      RightOfWay.getManeuver live d x = ManeuverType.Unknown) ∧
    (x ∈ RightOfWay.rightOfWayLanelets live d →
      x ∈ RightOfWay.yieldLanelets live d →
      RightOfWay.getManeuver live d x = ManeuverType.RightOfWay) := by
  refine ⟨?_, ?_, ?_, ?_⟩
  · intro hr
    simp [RightOfWay.getManeuver, hr]
  · intro hr hy
    simp [RightOfWay.getManeuver, hr, hy]
  · intro hr hy
    simp [RightOfWay.getManeuver, hr, hy]
  · intro hr hy
    simp [RightOfWay.getManeuver, hr]

/-- C4 witness: with live lanelets 1, 2 and 4, the example record classifies
lanelet 1 (right-of-way only) and lanelet 2 (both roles) as RightOfWay,
lanelet 4 (yield only) as Yield and lanelet 9 as Unknown. -/
theorem getManeuver_classification_witness :
    RightOfWay.getManeuver [1, 2, 4] rowRecord 1 = ManeuverType.RightOfWay ∧
    RightOfWay.getManeuver [1, 2, 4] rowRecord 2 = ManeuverType.RightOfWay ∧
    RightOfWay.getManeuver [1, 2, 4] rowRecord 4 = ManeuverType.Yield ∧
    RightOfWay.getManeuver [1, 2, 4] rowRecord 9 = ManeuverType.Unknown :=
  ⟨(getManeuver_classification [1, 2, 4] rowRecord 1).1 (by decide),
   (getManeuver_classification [1, 2, 4] rowRecord 2).2.2.2 (by decide) (by decide),
   (getManeuver_classification [1, 2, 4] rowRecord 4).2.1 (by decide) (by decide),
   (getManeuver_classification [1, 2, 4] rowRecord 9).2.2.1 (by decide) (by decide)⟩

/-- C8: every concrete-type constructor forces the Type attribute to the
regulatory-element sentinel and the Subtype attribute to the type's registry
tag (speed_limit overwriting the delegated traffic_sign tag), regardless of
the caller-supplied attribute map. -/
theorem constructor_sentinel_attributes :
    (∀ id a lights sl,
      attrGet (constructTrafficLightData id a lights sl).attributes typeKey
          = some regulatoryElementValue ∧
      attrGet (constructTrafficLightData id a lights sl).attributes subtypeKey
          = some trafficLightValue) ∧
    (∀ h id a ts cts rl cl,
      attrGet (constructTrafficSignData h id a ts cts rl cl).2.attributes typeKey
          = some regulatoryElementValue ∧
      attrGet (constructTrafficSignData h id a ts cts rl cl).2.attributes subtypeKey
          = some trafficSignValue) ∧
    (∀ h id a ts cts rl cl,
      attrGet (constructSpeedLimitData h id a ts cts rl cl).2.attributes typeKey
          = some regulatoryElementValue ∧
      attrGet (constructSpeedLimitData h id a ts cts rl cl).2.attributes subtypeKey
          = some speedLimitValue) ∧
    (∀ id a row yld sl,
      attrGet (constructRightOfWayData id a row yld sl).attributes typeKey
          = some regulatoryElementValue ∧
      attrGet (constructRightOfWayData id a row yld sl).attributes subtypeKey
          = some rightOfWayValue) :=
  ⟨fun id a lights sl =>
      ⟨constructTrafficLightData_type id a lights sl,
       constructTrafficLightData_subtype id a lights sl⟩,
   fun h id a ts cts rl cl =>
      ⟨constructTrafficSignData_type h id a ts cts rl cl,
       constructTrafficSignData_subtype h id a ts cts rl cl⟩,
   fun h id a ts cts rl cl =>
      ⟨constructSpeedLimitData_type h id a ts cts rl cl,
       constructSpeedLimitData_subtype h id a ts cts rl cl⟩,
   fun id a row yld sl =>
      ⟨constructRightOfWayData_type id a row yld sl,
       constructRightOfWayData_subtype id a row yld sl⟩⟩

/-- C10: the weak-lanelet equality returns false whenever either operand is
expired, so it is not reflexive on expired references; consequently on any
record whose right-of-way or yield role key is present, removing a lanelet
whose stored weak reference has expired returns false and leaves the record
unchanged. -/
theorem expired_weak_remove (live : List Nat) :
    (∀ a b : Nat, a ∉ live ∨ b ∉ live → wlaneletEq live a b = false) ∧
    (∀ a : Nat, a ∉ live → wlaneletEq live a a = false) ∧
    (∀ (d : RegulatoryElementData) (x : Nat) seq, x ∉ live →
      rpmFind d.parameters RoleName.RightOfWay = some seq →
      RightOfWay.removeRightOfWayLanelet live d x = some (false, d)) ∧
    (∀ (d : RegulatoryElementData) (x : Nat) seq, x ∉ live →
      rpmFind d.parameters RoleName.Yield = some seq →
      RightOfWay.removeYieldLanelet live d x = some (false, d)) := by
  have hrem : ∀ (d : RegulatoryElementData) (r : RoleName) (x : Nat)
      (seq : List RuleParameter), x ∉ live →
      rpmFind d.parameters r = some seq →
      removeFromRole live d r (RuleParameter.weakLanelet x) = some (false, d) := by
    intro d r x seq hx hfind
    have hno : ∀ q ∈ seq, paramEq live q (RuleParameter.weakLanelet x) = false := by
      intro q hq
      cases q with
      | lineString i => rfl
      | polygon i => rfl
      | weakLanelet a => exact wlaneletEq_expired live a x (Or.inr hx)
    unfold removeFromRole
    rw [hfind]
    simp only [findAndErase_not_found live _ seq hno]
    rw [rpmSet_self d.parameters r seq hfind]
  refine ⟨fun a b hab => wlaneletEq_expired live a b hab,
    fun a ha => wlaneletEq_expired live a a (Or.inl ha),
    fun d x seq hx hfind => hrem d RoleName.RightOfWay x seq hx hfind,
    fun d x seq hx hfind => hrem d RoleName.Yield x seq hx hfind⟩

/-- C10 witness: with only lanelet 2 live, the stored reference to lanelet 1
is expired — it is not equal to itself, and removing lanelet 1 from the
example stale record returns false and leaves the record unchanged. -/
theorem expired_weak_remove_witness :
    wlaneletEq [2] 1 1 = false ∧
    RightOfWay.removeRightOfWayLanelet [2] rowStaleRecord 1
        = some (false, rowStaleRecord) ∧
    RightOfWay.removeYieldLanelet [2] rowStaleRecord 1
        = some (false, rowStaleRecord) :=
  ⟨(expired_weak_remove [2]).2.1 1 (by decide),
   (expired_weak_remove [2]).2.2.1 rowStaleRecord 1
      [RuleParameter.weakLanelet 1] (by decide) (by decide),
   (expired_weak_remove [2]).2.2.2 rowStaleRecord 1
      [RuleParameter.weakLanelet 1] (by decide) (by decide)⟩

/-- C3: over a non-empty Cancels role, cancelType() behaves exactly like
type() run over the Cancels sequence (the Subtype value of the first
cancelling sign, or the invalid-input failure when it lacks a Subtype
attribute, up to the failure message); but when the Cancels role resolves to
no signs, cancelType() dereferences the front of an empty sequence (out of
contract, rendered none) where the guarded type() raises the invalid-input
failure. -/
theorem cancelType_unguarded (h : PrimHeap) (d : RegulatoryElementData) :
    (cancellingTrafficSigns d = [] →
      TrafficSign.cancelType h d = none ∧
      failed (TrafficSign.type h (withRefersFromCancels d)) = true) ∧
    (∀ s ss, cancellingTrafficSigns d = s :: ss →
      TrafficSign.cancelType h d = some (firstSignSubtype h s
        "Regulatory element has a cancelling traffic sign without subtype attribute!") ∧
      exceptValue (firstSignSubtype h s
          "Regulatory element has a cancelling traffic sign without subtype attribute!")
        = exceptValue (TrafficSign.type h (withRefersFromCancels d))) := by
  constructor
  · intro hc
    constructor
    · simp [TrafficSign.cancelType, hc]
    · simp [TrafficSign.type, trafficSigns_withRefersFromCancels, hc, failed]
  · intro s ss hc
    constructor
    · simp [TrafficSign.cancelType, hc]
    · have hty : TrafficSign.type h (withRefersFromCancels d)
          = firstSignSubtype h s
            "Regulatory element has a traffic sign without subtype attribute!" := by
        unfold TrafficSign.type
        rw [trafficSigns_withRefersFromCancels, hc]
      rw [hty]
      cases hax : signAttr h s subtypeKey <;>
        simp [firstSignSubtype, hax, exceptValue]

/-- C3 witness: on the example record without a Cancels entry cancelType is
out of contract while the guarded type over Cancels fails; on the example
record with one cancelling sign cancelType returns its Subtype lookup. -/
theorem cancelType_unguarded_witness :
    (TrafficSign.cancelType heapWithStopSign signOnlyRecord = none ∧
      failed (TrafficSign.type heapWithStopSign
        (withRefersFromCancels signOnlyRecord)) = true) ∧
    TrafficSign.cancelType heapWithStopSign signWithCancelRecord
      = some (firstSignSubtype heapWithStopSign (LineStringOrPolygon3d.ls 7)
        "Regulatory element has a cancelling traffic sign without subtype attribute!") :=
  ⟨(cancelType_unguarded heapWithStopSign signOnlyRecord).1 (by decide),
   ((cancelType_unguarded heapWithStopSign signWithCancelRecord).2
      (LineStringOrPolygon3d.ls 7) [] (by decide)).1⟩

/-- C6: type() fails iff the Refers role contains no sign or the first
Refers sign lacks a Subtype attribute; otherwise it returns the first sign's
Subtype value — in particular a TrafficSign constructed with a single sign
carrying Subtype "stop" answers type() with "stop". -/
theorem trafficSign_type_contract :
    (∀ h d, failed (TrafficSign.type h d) = true ↔
      (trafficSigns d = [] ∨
        ∃ s ss, trafficSigns d = s :: ss ∧ signAttr h s subtypeKey = none)) ∧
    (∀ h d s ss v, trafficSigns d = s :: ss →
      signAttr h s subtypeKey = some v → TrafficSign.type h d = .ok v) ∧
    (∀ h id i, signAttr h (LineStringOrPolygon3d.ls i) subtypeKey = some "stop" →
      (trafficSignDirect h id [] ⟨[LineStringOrPolygon3d.ls i], ""⟩ ⟨[], ""⟩ [] []).2
          = .ok (constructTrafficSignData h id [] ⟨[LineStringOrPolygon3d.ls i], ""⟩ ⟨[], ""⟩ [] []).2 ∧
      TrafficSign.type
          (trafficSignDirect h id [] ⟨[LineStringOrPolygon3d.ls i], ""⟩ ⟨[], ""⟩ [] []).1
          (constructTrafficSignData h id [] ⟨[LineStringOrPolygon3d.ls i], ""⟩ ⟨[], ""⟩ [] []).2
        = .ok "stop") := by
  refine ⟨?_, ?_, ?_⟩
  · intro h d
    cases hc : trafficSigns d with
    | nil => simp [TrafficSign.type, hc, failed]
    | cons s ss =>
      cases ha : signAttr h s subtypeKey with
      | none => simp [TrafficSign.type, hc, firstSignSubtype, ha, failed]
      | some v => simp [TrafficSign.type, hc, firstSignSubtype, ha, failed]
  · intro h d s ss v hc ha
    unfold TrafficSign.type
    rw [hc]
    simp [firstSignSubtype, ha]
  · intro h id i hstop
    have hty : TrafficSign.type
        (trafficSignDirect h id [] ⟨[LineStringOrPolygon3d.ls i], ""⟩ ⟨[], ""⟩ [] []).1
        (constructTrafficSignData h id [] ⟨[LineStringOrPolygon3d.ls i], ""⟩ ⟨[], ""⟩ [] []).2
        = .ok "stop" := by
      unfold TrafficSign.type trafficSigns
      have hsigns : getLsOrPoly (constructTrafficSignData h id []
          ⟨[LineStringOrPolygon3d.ls i], ""⟩ ⟨[], ""⟩ [] []).2.parameters
          RoleName.Refers = [LineStringOrPolygon3d.ls i] := by
        simp [constructTrafficSignData, getLsOrPoly, paramsAt, rpmFind,
          LineStringOrPolygon3d.asRuleParameter]
      rw [hsigns]
      have hheap : (trafficSignDirect h id []
          ⟨[LineStringOrPolygon3d.ls i], ""⟩ ⟨[], ""⟩ [] []).1 = h := rfl
      rw [hheap]
      simp [firstSignSubtype, hstop]
    have hty2 : TrafficSign.type
        (constructTrafficSignData h id [] ⟨[LineStringOrPolygon3d.ls i], ""⟩ ⟨[], ""⟩ [] []).1
        (constructTrafficSignData h id [] ⟨[LineStringOrPolygon3d.ls i], ""⟩ ⟨[], ""⟩ [] []).2
        = .ok "stop" := hty
    refine ⟨?_, hty⟩
    show trafficSignChecked _ _ = _
    unfold trafficSignChecked
    rw [hty2]

/-- C6 witness: on the example heap, type() fails on the empty record,
returns "stop" on the sign record, and the direct construction with the
"stop" sign succeeds. -/
theorem trafficSign_type_contract_witness :
    failed (TrafficSign.type heapWithStopSign ⟨3, [], []⟩) = true ∧
    TrafficSign.type heapWithStopSign signOnlyRecord = .ok "stop" ∧
    (trafficSignDirect heapWithStopSign 1 [] ⟨[LineStringOrPolygon3d.ls 7], ""⟩ ⟨[], ""⟩ [] []).2
      = .ok (constructTrafficSignData heapWithStopSign 1 [] ⟨[LineStringOrPolygon3d.ls 7], ""⟩ ⟨[], ""⟩ [] []).2 :=
  ⟨(trafficSign_type_contract.1 heapWithStopSign ⟨3, [], []⟩).mpr (Or.inl (by decide)),
   trafficSign_type_contract.2.1 heapWithStopSign signOnlyRecord
     (LineStringOrPolygon3d.ls 7) [] "stop" (by decide) (by decide),
   (trafficSign_type_contract.2.2 heapWithStopSign 1 7 (by decide)).1⟩

/-- C5 counterexample: with Refers already holding linestring 1 followed by
linestring 2, adding linestring 1 again and removing it returns true but
erases the first equal entry, leaving the role sequence reordered instead of
restored to its pre-add state. -/
theorem addRemove_roundtrip_cex :
    TrafficLight.removeTrafficLight []
        (TrafficLight.addTrafficLight
          ⟨1, [], [(RoleName.Refers,
             [RuleParameter.lineString 1, RuleParameter.lineString 2])]⟩
          (LineStringOrPolygon3d.ls 1))
        (LineStringOrPolygon3d.ls 1)
      = some (true, ⟨1, [], [(RoleName.Refers,
          [RuleParameter.lineString 2, RuleParameter.lineString 1])]⟩) ∧
    [RuleParameter.lineString 2, RuleParameter.lineString 1]
      ≠ paramsAt [(RoleName.Refers,
          [RuleParameter.lineString 1, RuleParameter.lineString 2])]
          RoleName.Refers := by
  decide

/-- C5 (amended): for every typed view, role and reference, when the role's
pre-add sequence contains no entry equal to the reference (and, for lanelet
roles, the lanelet is live), calling the add mutator and then the matching
remove mutator with the same reference makes the remove return true and
restores every role's sequence to exactly its pre-add state; when an equal
entry is already present, the remove erases the first equal entry rather
than the appended one, so the role sequence need not be restored. -/
theorem addRemove_roundtrip (live : List Nat) (d : RegulatoryElementData) :
    (∀ p : LineStringOrPolygon3d,
      (∀ q ∈ paramsAt d.parameters RoleName.Refers,
          paramEq live q p.asRuleParameter = false) →
      TrafficLight.removeTrafficLight live (TrafficLight.addTrafficLight d p) p
          = some (true, afterRoundtrip d RoleName.Refers p.asRuleParameter) ∧
      ∀ r2, paramsAt (afterRoundtrip d RoleName.Refers p.asRuleParameter).parameters r2
          = paramsAt d.parameters r2) ∧
    (∀ p : LineStringOrPolygon3d,
      (∀ q ∈ paramsAt d.parameters RoleName.Refers,
          paramEq live q p.asRuleParameter = false) →
      TrafficSign.removeTrafficSign live (TrafficSign.addTrafficSign d p) p
          = some (true, afterRoundtrip d RoleName.Refers p.asRuleParameter) ∧
      ∀ r2, paramsAt (afterRoundtrip d RoleName.Refers p.asRuleParameter).parameters r2
          = paramsAt d.parameters r2) ∧
    (∀ p : LineStringOrPolygon3d,
      (∀ q ∈ paramsAt d.parameters RoleName.Cancels,
          paramEq live q p.asRuleParameter = false) →
      TrafficSign.removeCancellingTrafficSign live
          (TrafficSign.addCancellingTrafficSign d p) p
          = some (true, afterRoundtrip d RoleName.Cancels p.asRuleParameter) ∧
      ∀ r2, paramsAt (afterRoundtrip d RoleName.Cancels p.asRuleParameter).parameters r2
          = paramsAt d.parameters r2) ∧
    (∀ l : Nat,
      (∀ q ∈ paramsAt d.parameters RoleName.RefLine,
          paramEq live q (RuleParameter.lineString l) = false) →
      TrafficSign.removeRefLine live (TrafficSign.addRefLine d l) l
          = some (true, afterRoundtrip d RoleName.RefLine (RuleParameter.lineString l)) ∧
      ∀ r2, paramsAt (afterRoundtrip d RoleName.RefLine (RuleParameter.lineString l)).parameters r2
          = paramsAt d.parameters r2) ∧
    (∀ l : Nat,
      (∀ q ∈ paramsAt d.parameters RoleName.CancelLine,
          paramEq live q (RuleParameter.lineString l) = false) →
      TrafficSign.removeCancellingRefLine live (TrafficSign.addCancellingRefLine d l) l
          = some (true, afterRoundtrip d RoleName.CancelLine (RuleParameter.lineString l)) ∧
      ∀ r2, paramsAt (afterRoundtrip d RoleName.CancelLine (RuleParameter.lineString l)).parameters r2
          = paramsAt d.parameters r2) ∧
    (∀ x : Nat, x ∈ live →
      (∀ q ∈ paramsAt d.parameters RoleName.RightOfWay,
          paramEq live q (RuleParameter.weakLanelet x) = false) →
      RightOfWay.removeRightOfWayLanelet live (RightOfWay.addRightOfWayLanelet d x) x
          = some (true, afterRoundtrip d RoleName.RightOfWay (RuleParameter.weakLanelet x)) ∧
      ∀ r2, paramsAt (afterRoundtrip d RoleName.RightOfWay (RuleParameter.weakLanelet x)).parameters r2
          = paramsAt d.parameters r2) ∧
    (∀ x : Nat, x ∈ live →
      (∀ q ∈ paramsAt d.parameters RoleName.Yield,
          paramEq live q (RuleParameter.weakLanelet x) = false) →
      RightOfWay.removeYieldLanelet live (RightOfWay.addYieldLanelet d x) x
          = some (true, afterRoundtrip d RoleName.Yield (RuleParameter.weakLanelet x)) ∧
      ∀ r2, paramsAt (afterRoundtrip d RoleName.Yield (RuleParameter.weakLanelet x)).parameters r2
          = paramsAt d.parameters r2) :=
  ⟨fun p hno => roundtrip_master live d RoleName.Refers p.asRuleParameter
      (paramEq_asRuleParameter_self live p) hno,
   fun p hno => roundtrip_master live d RoleName.Refers p.asRuleParameter
      (paramEq_asRuleParameter_self live p) hno,
   fun p hno => roundtrip_master live d RoleName.Cancels p.asRuleParameter
      (paramEq_asRuleParameter_self live p) hno,
   fun l hno => roundtrip_master live d RoleName.RefLine (RuleParameter.lineString l)
      (paramEq_asRuleParameter_self live (LineStringOrPolygon3d.ls l)) hno,
   fun l hno => roundtrip_master live d RoleName.CancelLine (RuleParameter.lineString l)
      (paramEq_asRuleParameter_self live (LineStringOrPolygon3d.ls l)) hno,
   fun x hx hno => roundtrip_master live d RoleName.RightOfWay (RuleParameter.weakLanelet x)
      (paramEq_weak_self live x hx) hno,
   fun x hx hno => roundtrip_master live d RoleName.Yield (RuleParameter.weakLanelet x)
      (paramEq_weak_self live x hx) hno⟩

/-- C5 witness: adding linestring 3 to the example single-light record and
removing it returns true and restores the Refers sequence. -/
theorem addRemove_roundtrip_witness :
    TrafficLight.removeTrafficLight []
        (TrafficLight.addTrafficLight tlSingleRecord (LineStringOrPolygon3d.ls 3))
        (LineStringOrPolygon3d.ls 3)
      = some (true, afterRoundtrip tlSingleRecord RoleName.Refers
          (RuleParameter.lineString 3)) ∧
    paramsAt (afterRoundtrip tlSingleRecord RoleName.Refers
        (RuleParameter.lineString 3)).parameters RoleName.Refers
      = paramsAt tlSingleRecord.parameters RoleName.Refers :=
  ⟨((addRemove_roundtrip [] tlSingleRecord).1
      (LineStringOrPolygon3d.ls 3) (by decide)).1,
   ((addRemove_roundtrip [] tlSingleRecord).1
      (LineStringOrPolygon3d.ls 3) (by decide)).2 RoleName.Refers⟩

/-- C7 counterexample: a sign geometry listed in both groups with two
different non-empty type strings ends construction carrying the cancelling
group's subtype "b", not its trafficSigns group's subtype "a" — the second
stamping overwrites the first, so not every sign of a non-empty-type group
observably carries that group's type string after construction. -/
theorem sign_stamping_cex :
    signAttr (constructTrafficSignData [(1, [])] 9 []
        ⟨[LineStringOrPolygon3d.ls 1], "a"⟩
        ⟨[LineStringOrPolygon3d.ls 1], "b"⟩ [] []).1
        (LineStringOrPolygon3d.ls 1) subtypeKey = some "b" ∧
    LineStringOrPolygon3d.ls 1
      ∈ (⟨[LineStringOrPolygon3d.ls 1], "a"⟩ : TrafficSignsWithType).trafficSigns ∧
    (⟨[LineStringOrPolygon3d.ls 1], "a"⟩ : TrafficSignsWithType).type ≠ "" ∧
    (some "b" : Option String) ≠ some "a" := by
  decide

/-- C7 (amended): during TrafficSign and SpeedLimit construction every sign
of the cancelling group with a non-empty type string is stamped with the
traffic-sign sentinel Type and the group's Subtype; a sign of the
trafficSigns group with a non-empty type string observably keeps that stamp
provided it is not re-stamped by a non-empty cancelling group; and a
primitive touched by neither non-empty group keeps its attributes
unmodified. -/
theorem sign_stamping (h : PrimHeap) (id : Nat) (a : AttributeMap)
    (ts cts : TrafficSignsWithType) (rl cl : List Nat) :
    (∀ s ∈ cts.trafficSigns, cts.type ≠ "" →
      signAttr (constructTrafficSignData h id a ts cts rl cl).1 s typeKey
          = some trafficSignValue ∧
      signAttr (constructTrafficSignData h id a ts cts rl cl).1 s subtypeKey
          = some cts.type) ∧
    (∀ s ∈ ts.trafficSigns, ts.type ≠ "" →
      (cts.type = "" ∨
        s.idOf ∉ cts.trafficSigns.map LineStringOrPolygon3d.idOf) →
      signAttr (constructTrafficSignData h id a ts cts rl cl).1 s typeKey
          = some trafficSignValue ∧
      signAttr (constructTrafficSignData h id a ts cts rl cl).1 s subtypeKey
          = some ts.type) ∧
    (∀ i : Nat,
      (ts.type = "" ∨ i ∉ ts.trafficSigns.map LineStringOrPolygon3d.idOf) →
      (cts.type = "" ∨ i ∉ cts.trafficSigns.map LineStringOrPolygon3d.idOf) →
      heapAttrs (constructTrafficSignData h id a ts cts rl cl).1 i
          = heapAttrs h i) := by
  have hres : (constructTrafficSignData h id a ts cts rl cl).1
      = updateTrafficSigns (updateTrafficSigns h ts) cts := rfl
  refine ⟨?_, ?_, ?_⟩
  · intro s hs ht
    unfold signAttr
    rw [hres]
    exact updateTrafficSigns_stamped (updateTrafficSigns h ts) cts s hs ht
  · intro s hs ht hnc
    unfold signAttr
    rw [hres, updateTrafficSigns_out (updateTrafficSigns h ts) cts s.idOf hnc]
    exact updateTrafficSigns_stamped h ts s hs ht
  · intro i hts hcts
    rw [hres, updateTrafficSigns_out (updateTrafficSigns h ts) cts i hcts,
      updateTrafficSigns_out h ts i hts]

/-- C7 witness: with disjoint groups over the two-sign heap, sign 1 carries
Type traffic_sign / Subtype "sa", sign 2 carries Subtype "sb", and the
untouched primitive 5 keeps its (empty) attributes. -/
theorem sign_stamping_witness :
    signAttr (constructTrafficSignData twoSignHeap 9 []
        ⟨[LineStringOrPolygon3d.ls 1], "sa"⟩
        ⟨[LineStringOrPolygon3d.ls 2], "sb"⟩ [] []).1
        (LineStringOrPolygon3d.ls 1) subtypeKey = some "sa" ∧
    signAttr (constructTrafficSignData twoSignHeap 9 []
        ⟨[LineStringOrPolygon3d.ls 1], "sa"⟩
        ⟨[LineStringOrPolygon3d.ls 2], "sb"⟩ [] []).1
        (LineStringOrPolygon3d.ls 2) subtypeKey = some "sb" ∧
    signAttr (constructTrafficSignData twoSignHeap 9 []
        ⟨[LineStringOrPolygon3d.ls 1], "sa"⟩
        ⟨[LineStringOrPolygon3d.ls 2], "sb"⟩ [] []).1
        (LineStringOrPolygon3d.ls 2) typeKey = some trafficSignValue ∧
    heapAttrs (constructTrafficSignData twoSignHeap 9 []
        ⟨[LineStringOrPolygon3d.ls 1], "sa"⟩
        ⟨[LineStringOrPolygon3d.ls 2], "sb"⟩ [] []).1 5 = heapAttrs twoSignHeap 5 :=
  ⟨((sign_stamping twoSignHeap 9 [] ⟨[LineStringOrPolygon3d.ls 1], "sa"⟩
      ⟨[LineStringOrPolygon3d.ls 2], "sb"⟩ [] []).2.1
      (LineStringOrPolygon3d.ls 1) (by decide) (by decide)
      (Or.inr (by decide))).2,
   ((sign_stamping twoSignHeap 9 [] ⟨[LineStringOrPolygon3d.ls 1], "sa"⟩
      ⟨[LineStringOrPolygon3d.ls 2], "sb"⟩ [] []).1
      (LineStringOrPolygon3d.ls 2) (by decide) (by decide)).2,
   ((sign_stamping twoSignHeap 9 [] ⟨[LineStringOrPolygon3d.ls 1], "sa"⟩
      ⟨[LineStringOrPolygon3d.ls 2], "sb"⟩ [] []).1
      (LineStringOrPolygon3d.ls 2) (by decide) (by decide)).1,
   (sign_stamping twoSignHeap 9 [] ⟨[LineStringOrPolygon3d.ls 1], "sa"⟩
      ⟨[LineStringOrPolygon3d.ls 2], "sb"⟩ [] []).2.2 5
      (Or.inr (by decide)) (Or.inr (by decide))⟩

/-- C9: every remove mutator dereferences the role-key lookup without an
absence check, so on a record lacking the role key the operation is
undefined (rendered none); the typed constructors establish the precondition
by always inserting the keys their type's remove mutators use; and a raw
record reconstructed generically need not satisfy it — the example record
passes TrafficSign validation yet makes removeRefLine undefined. -/
theorem remove_requires_role_key :
    (∀ live (d : RegulatoryElementData) p,
      rpmFind d.parameters RoleName.Refers = none →
      TrafficLight.removeTrafficLight live d p = none) ∧
    (∀ live (d : RegulatoryElementData) p,
      rpmFind d.parameters RoleName.Refers = none →
      TrafficSign.removeTrafficSign live d p = none) ∧
    (∀ live (d : RegulatoryElementData) l,
      rpmFind d.parameters RoleName.RefLine = none →
      TrafficSign.removeRefLine live d l = none) ∧
    (∀ live (d : RegulatoryElementData) l,
      rpmFind d.parameters RoleName.CancelLine = none →
      TrafficSign.removeCancellingRefLine live d l = none) ∧
    (∀ live (d : RegulatoryElementData) s,
      rpmFind d.parameters RoleName.Cancels = none →
      TrafficSign.removeCancellingTrafficSign live d s = none) ∧
    (∀ live (d : RegulatoryElementData) x,
      rpmFind d.parameters RoleName.RightOfWay = none →
      RightOfWay.removeRightOfWayLanelet live d x = none) ∧
    (∀ live (d : RegulatoryElementData) x,
      rpmFind d.parameters RoleName.Yield = none →
      RightOfWay.removeYieldLanelet live d x = none) ∧
    (∀ id a lights sl,
      (rpmFind (constructTrafficLightData id a lights sl).parameters
        RoleName.Refers).isSome = true) ∧
    (∀ h id a ts cts rl cl,
      (rpmFind (constructTrafficSignData h id a ts cts rl cl).2.parameters
        RoleName.Refers).isSome = true ∧
      (rpmFind (constructTrafficSignData h id a ts cts rl cl).2.parameters
        RoleName.Cancels).isSome = true ∧
      (rpmFind (constructTrafficSignData h id a ts cts rl cl).2.parameters
        RoleName.RefLine).isSome = true ∧
      (rpmFind (constructTrafficSignData h id a ts cts rl cl).2.parameters
        RoleName.CancelLine).isSome = true) ∧
    (∀ id a row yld sl,
      (rpmFind (constructRightOfWayData id a row yld sl).parameters
        RoleName.RightOfWay).isSome = true ∧
      (rpmFind (constructRightOfWayData id a row yld sl).parameters
        RoleName.Yield).isSome = true) ∧
    (trafficSignChecked heapWithStopSign signOnlyRecord = .ok signOnlyRecord ∧
      TrafficSign.removeRefLine [] signOnlyRecord 9 = none) := by
  have hgen : ∀ live (d : RegulatoryElementData) (r : RoleName) p,
      rpmFind d.parameters r = none → removeFromRole live d r p = none := by
    intro live d r p hk
    unfold removeFromRole
    rw [hk]
  refine ⟨fun live d p hk => hgen live d RoleName.Refers _ hk,
    fun live d p hk => hgen live d RoleName.Refers _ hk,
    fun live d l hk => hgen live d RoleName.RefLine _ hk,
    fun live d l hk => hgen live d RoleName.CancelLine _ hk,
    fun live d s hk => hgen live d RoleName.Cancels _ hk,
    fun live d x hk => hgen live d RoleName.RightOfWay _ hk,
    fun live d x hk => hgen live d RoleName.Yield _ hk,
    ?_, ?_, ?_, by decide⟩
  · intro id a lights sl
    cases sl <;> simp [constructTrafficLightData, rpmInsert, rpmFind]
  · intro h id a ts cts rl cl
    refine ⟨?_, ?_, ?_, ?_⟩ <;> simp [constructTrafficSignData, rpmFind]
  · intro id a row yld sl
    cases sl <;> refine ⟨?_, ?_⟩ <;>
      simp [constructRightOfWayData, rpmSet, rpmFind]

/-- C9 witness: removing from a record without the role key is undefined,
both on an empty raw record and on the valid example record that lacks the
RefLine key. -/
theorem remove_requires_role_key_witness :
    TrafficLight.removeTrafficLight [] ⟨3, [], []⟩ (LineStringOrPolygon3d.ls 1)
        = none ∧
    TrafficSign.removeRefLine [] signOnlyRecord 9 = none :=
  ⟨remove_requires_role_key.1 [] ⟨3, [], []⟩ (LineStringOrPolygon3d.ls 1) rfl,
   remove_requires_role_key.2.2.1 [] signOnlyRecord 9 (by decide)⟩

theorem registryBuild_tag (h : PrimHeap) (d : RegulatoryElementData)
    (tag : String) (htag : attrGet d.attributes subtypeKey = some tag) :
    registryBuild h d =
      if tag = trafficLightValue then trafficLightChecked d
      else if tag = rightOfWayValue then rightOfWayChecked d
      else if tag = trafficSignValue then trafficSignChecked h d
      else if tag = speedLimitValue then trafficSignChecked h d
      else .error "Unregistered regulatory element type!" := by
  unfold registryBuild
  rw [htag]

/-- C1: for each of the four concrete types, when direct construction
succeeds, reconstructing generically through the Type Registry from the
produced raw record succeeds and yields a view over that very record —
hence a view with identical role-keyed parameter contents and an identical
attribute map. -/
theorem registry_reconstruction :
    (∀ h id a lights sl d, trafficLightDirect id a lights sl = .ok d →
      registryBuild h d = .ok d) ∧
    (∀ h id a row yld sl d, rightOfWayDirect id a row yld sl = .ok d →
      registryBuild h d = .ok d) ∧
    (∀ h id a ts cts rl cl d,
      (trafficSignDirect h id a ts cts rl cl).2 = .ok d →
      registryBuild (trafficSignDirect h id a ts cts rl cl).1 d = .ok d) ∧
    (∀ h id a ts cts rl cl d,
      (speedLimitDirect h id a ts cts rl cl).2 = .ok d →
      registryBuild (speedLimitDirect h id a ts cts rl cl).1 d = .ok d) := by
  refine ⟨?_, ?_, ?_, ?_⟩
  · intro h id a lights sl d hd
    unfold trafficLightDirect trafficLightChecked at hd
    split_ifs at hd with h1 h2
    have hde : constructTrafficLightData id a lights sl = d := Except.ok.inj hd
    subst hde
    rw [registryBuild_tag h _ trafficLightValue
      (constructTrafficLightData_subtype id a lights sl), if_pos rfl]
    unfold trafficLightChecked
    rw [if_neg h1, if_neg h2]
  · intro h id a row yld sl d hd
    unfold rightOfWayDirect rightOfWayChecked at hd
    split_ifs at hd with h1 h2
    have hde : constructRightOfWayData id a row yld sl = d := Except.ok.inj hd
    subst hde
    rw [registryBuild_tag h _ rightOfWayValue
      (constructRightOfWayData_subtype id a row yld sl),
      if_neg (by decide : ¬(rightOfWayValue = trafficLightValue)),
      if_pos rfl]
    unfold rightOfWayChecked
    rw [if_neg h1, if_neg h2]
  · intro h id a ts cts rl cl d hd
    have hd2 : trafficSignChecked
        (constructTrafficSignData h id a ts cts rl cl).1
        (constructTrafficSignData h id a ts cts rl cl).2 = .ok d := hd
    unfold trafficSignChecked at hd2
    cases hty : TrafficSign.type (constructTrafficSignData h id a ts cts rl cl).1
        (constructTrafficSignData h id a ts cts rl cl).2 with
    | error e =>
      rw [hty] at hd2
      simp at hd2
    | ok v =>
      rw [hty] at hd2
      have hde : (constructTrafficSignData h id a ts cts rl cl).2 = d :=
        Except.ok.inj hd2
      subst hde
      rw [show (trafficSignDirect h id a ts cts rl cl).1
          = (constructTrafficSignData h id a ts cts rl cl).1 from rfl,
        registryBuild_tag _ _ trafficSignValue
          (constructTrafficSignData_subtype h id a ts cts rl cl),
        if_neg (by decide : ¬(trafficSignValue = trafficLightValue)),
        if_neg (by decide : ¬(trafficSignValue = rightOfWayValue)),
        if_pos rfl]
      unfold trafficSignChecked
      rw [hty]
  · intro h id a ts cts rl cl d hd
    have hd2 : trafficSignChecked
        (constructSpeedLimitData h id a ts cts rl cl).1
        (constructSpeedLimitData h id a ts cts rl cl).2 = .ok d := hd
    unfold trafficSignChecked at hd2
    cases hty : TrafficSign.type (constructSpeedLimitData h id a ts cts rl cl).1
        (constructSpeedLimitData h id a ts cts rl cl).2 with
    | error e =>
      rw [hty] at hd2
      simp at hd2
    | ok v =>
      rw [hty] at hd2
      have hde : (constructSpeedLimitData h id a ts cts rl cl).2 = d :=
        Except.ok.inj hd2
      subst hde
      rw [show (speedLimitDirect h id a ts cts rl cl).1
          = (constructSpeedLimitData h id a ts cts rl cl).1 from rfl,
        registryBuild_tag _ _ speedLimitValue
          (constructSpeedLimitData_subtype h id a ts cts rl cl),
        if_neg (by decide : ¬(speedLimitValue = trafficLightValue)),
        if_neg (by decide : ¬(speedLimitValue = rightOfWayValue)),
        if_neg (by decide : ¬(speedLimitValue = trafficSignValue)),
        if_pos rfl]
      unfold trafficSignChecked
      rw [hty]

/-- C1 witness: concrete successful direct constructions of all four types
whose records the registry reconstructs unchanged. -/
theorem registry_reconstruction_witness :
    registryBuild [] (constructTrafficLightData 1 [] [4] none)
        = .ok (constructTrafficLightData 1 [] [4] none) ∧
    registryBuild [] (constructRightOfWayData 2 [] [5] [6] none)
        = .ok (constructRightOfWayData 2 [] [5] [6] none) ∧
    registryBuild (trafficSignDirect heapWithStopSign 3 []
          ⟨[LineStringOrPolygon3d.ls 7], ""⟩ ⟨[], ""⟩ [] []).1
        (constructTrafficSignData heapWithStopSign 3 []
          ⟨[LineStringOrPolygon3d.ls 7], ""⟩ ⟨[], ""⟩ [] []).2
      = .ok (constructTrafficSignData heapWithStopSign 3 []
          ⟨[LineStringOrPolygon3d.ls 7], ""⟩ ⟨[], ""⟩ [] []).2 ∧
    registryBuild (speedLimitDirect heapWithStopSign 4 []
          ⟨[LineStringOrPolygon3d.ls 7], ""⟩ ⟨[], ""⟩ [] []).1
        (constructSpeedLimitData heapWithStopSign 4 []
          ⟨[LineStringOrPolygon3d.ls 7], ""⟩ ⟨[], ""⟩ [] []).2
      = .ok (constructSpeedLimitData heapWithStopSign 4 []
          ⟨[LineStringOrPolygon3d.ls 7], ""⟩ ⟨[], ""⟩ [] []).2 :=
  ⟨registry_reconstruction.1 [] 1 [] [4] none _ (by decide),
   registry_reconstruction.2.1 [] 2 [] [5] [6] none _ (by decide),
   registry_reconstruction.2.2.1 heapWithStopSign 3 []
     ⟨[LineStringOrPolygon3d.ls 7], ""⟩ ⟨[], ""⟩ [] [] _ (by decide),
   registry_reconstruction.2.2.2 heapWithStopSign 4 []
     ⟨[LineStringOrPolygon3d.ls 7], ""⟩ ⟨[], ""⟩ [] [] _ (by decide)⟩

end Lanelet2
